import Mathlib

/-!
Shallow embedding of the asynchronous job-processing core of the
Octopus-AI-SecondBrain backend:

* `src/backend/app/services/job_queue.py` — job record model (`JobData`),
  the orchestrator (`JobQueue`) lifecycle operations;
* `src/backend/app/worker.py` — the worker pool's supervising loop;
* `src/backend/app/api/jobs.py` — the cancel endpoint;
* `src/backend/app/core/redis.py` — the list primitives used by the above
  (the in-memory fallback spells out the Redis semantics relied on).

Python datetimes are modelled as `Nat` ticks passed explicitly where the
source calls `datetime.utcnow()`.  Redis persistence is modelled by each
mutating operation returning, alongside the updated record, the TTL value
it passes to `set_json`, as a symbolic tag (`Ttl.jobTtl` for
`settings.redis.job_ttl`, `Ttl.jobResultTtl` for
`settings.redis.job_result_ttl`).  JSON dicts are modelled as association
lists of strings.
-/

namespace JobQueueModel

/-- `JobStatus` enum, job_queue.py lines 20-27. -/
inductive JobStatus
  | pending
  | processing
  | completed
  | failed
  | cancelled
  deriving DecidableEq, Repr

/-- `JobType` enum, job_queue.py lines 30-37. -/
inductive JobType
  | ingest_file
  | ingest_text
  | batch_ingest
  | reindex
  | delete_documents
  deriving DecidableEq, Repr

/-- Opaque JSON-dict payloads (`result`, `metadata`) as association lists. -/
abbrev RDict : Type := List (String × String)

/-- `JobData` pydantic model, job_queue.py lines 40-65.  The `ge=0` pydantic
constraints on the counters are reflected by using `Nat`. -/
structure JobData where
  job_id : String
  user_id : Int
  job_type : JobType
  status : JobStatus
  total_items : Nat
  processed_items : Nat
  failed_items : Nat
  created_at : Nat
  started_at : Option Nat
  completed_at : Option Nat
  error_message : Option String
  retry_count : Nat
  max_retries : Nat
  result : Option RDict
  metadata : RDict
  deriving DecidableEq, Repr

/-- `JobData.progress` property, job_queue.py lines 67-72: guarded division,
`min(processed/total, 1.0)`, defined as `0.0` when `total_items == 0`. -/
def JobData.progress (j : JobData) : ℚ :=
  if j.total_items = 0 then 0
  else min ((j.processed_items : ℚ) / (j.total_items : ℚ)) 1

/-- `JobData.is_terminal` property, job_queue.py lines 82-85. -/
def JobData.is_terminal (j : JobData) : Bool :=
  j.status = JobStatus.completed ∨ j.status = JobStatus.failed ∨
    j.status = JobStatus.cancelled

/-- Which TTL a persist (`redis.set_json`) was issued with. -/
inductive Ttl
  | jobTtl
  | jobResultTtl
  deriving DecidableEq, Repr

/-- `settings.redis.job_ttl` default, settings.py line 235. -/
def job_ttl_default : Nat := 86400

/-- `settings.redis.job_result_ttl` default, settings.py line 236. -/
def job_result_ttl_default : Nat := 3600

/-- `JobQueue.update_job`, job_queue.py lines 183-204: re-persists the record
with `ttl=job_ttl`, whatever its status.  Returns the TTL tag used. -/
def update_job (j : JobData) : JobData × Ttl :=
  (j, Ttl.jobTtl)

/-- `JobQueue.start_job`, job_queue.py lines 206-226: sets
`status=PROCESSING` and `started_at=now` unconditionally (there is no check
of the prior status) and persists via `update_job`. -/
def start_job (j : JobData) (now : Nat) : JobData × Ttl :=
  update_job { j with status := JobStatus.processing, started_at := some now }

/-- `JobQueue.update_progress`, job_queue.py lines 228-265: sets or
increments the two counters, then persists via `update_job`. -/
def update_progress (j : JobData) (processed_items failed_items : Option Nat)
    (increment : Bool) : JobData × Ttl :=
  let j1 :=
    match processed_items with
    | some p =>
        if increment then { j with processed_items := j.processed_items + p }
        else { j with processed_items := p }
    | none => j
  let j2 :=
    match failed_items with
    | some f =>
        if increment then { j1 with failed_items := j1.failed_items + f }
        else { j1 with failed_items := f }
    | none => j1
  update_job j2

/-- Python `result or {}` on an `Optional[dict]` (job_queue.py line 289):
`None` and the empty dict are falsy and give `{}`. -/
def py_or_empty (r : Option RDict) : RDict :=
  match r with
  | none => ∅
  | some d => if d = (∅ : RDict) then ∅ else d

/-- `JobQueue.complete_job`, job_queue.py lines 267-303: sets
`status=COMPLETED`, `completed_at=now`, `result = result or {}`,
`processed_items = total_items`, and persists directly with
`ttl=job_result_ttl` (not via `update_job`). -/
def complete_job (j : JobData) (result : Option RDict) (now : Nat) :
    JobData × Ttl :=
  ({ j with
      status := JobStatus.completed
      completed_at := some now
      result := some (py_or_empty result)
      processed_items := j.total_items },
   Ttl.jobResultTtl)

/-- Result of `fail_job`: the updated record, the dispatch queue for the
job's type after the call, and the TTL of the persist. -/
structure FailResult where
  job : JobData
  queue : List String
  ttl : Ttl
  deriving DecidableEq, Repr

/-- `JobQueue.fail_job`, job_queue.py lines 305-355: sets `error_message`,
increments `retry_count`; if `should_retry and retry_count <= max_retries`
resets `status=PENDING` and `rpush`es the job id onto the dispatch queue of
its type, else sets `status=FAILED` and `completed_at=now`.  Either way the
record is persisted via `update_job` (so with `job_ttl`). -/
def fail_job (j : JobData) (error_message : String) (should_retry : Bool)
    (now : Nat) (queue : List String) : FailResult :=
  let j1 := { j with
                error_message := some error_message
                retry_count := j.retry_count + 1 }
  if should_retry ∧ j1.retry_count ≤ j1.max_retries then
    { job := { j1 with status := JobStatus.pending }
      queue := queue ++ [j1.job_id]
      ttl := (update_job { j1 with status := JobStatus.pending }).2 }
  else
    { job := { j1 with status := JobStatus.failed, completed_at := some now }
      queue := queue
      ttl := (update_job { j1 with status := JobStatus.failed,
                                   completed_at := some now }).2 }

/-- `JobQueue.cancel_job`, job_queue.py lines 357-381: if the job
`is_terminal`, returns it unchanged without persisting (`none`); otherwise
sets `status=CANCELLED`, `completed_at=now` and persists via `update_job`. -/
def cancel_job (j : JobData) (now : Nat) : JobData × Option Ttl :=
  if j.is_terminal then (j, none)
  else
    let j1 := { j with status := JobStatus.cancelled, completed_at := some now }
    ((update_job j1).1, some (update_job j1).2)

/-- The Redis-backed store, restricted to the keys the job core uses
(§ redis.py in-memory fallback spells these semantics out):
`job:{job_id}` records, `user:{user_id}:jobs` history lists (prepend-
ordered), `queue:{job_type}` dispatch lists (FIFO: rpush/lpop). -/
structure QueueState where
  jobs : String → Option JobData
  user_jobs : Int → List String
  queues : JobType → List String

/-- `JobQueue.create_job`, job_queue.py lines 113-157: builds a fresh
pending record (counters/timestamps per the `JobData` field defaults,
`max_retries` from settings), persists it with `ttl=job_ttl`, `lpush`es the
id onto the user's history list (so newest first) and `rpush`es it onto the
dispatch queue of its type. -/
def create_job (st : QueueState) (job_id : String) (user_id : Int)
    (job_type : JobType) (total_items : Nat) (max_retries : Nat)
    (metadata : RDict) (now : Nat) : QueueState × JobData × Ttl :=
  let job : JobData :=
    { job_id := job_id
      user_id := user_id
      job_type := job_type
      status := JobStatus.pending
      total_items := total_items
      processed_items := 0
      failed_items := 0
      created_at := now
      started_at := none
      completed_at := none
      error_message := none
      retry_count := 0
      max_retries := max_retries
      result := none
      metadata := metadata }
  ({ jobs := fun k => if k = job_id then some job else st.jobs k
     user_jobs := fun u => if u = user_id then job_id :: st.user_jobs u
                           else st.user_jobs u
     queues := fun t => if t = job_type then st.queues t ++ [job_id]
                        else st.queues t },
   job, Ttl.jobTtl)

/-- Python `l[0 : stop + 1 if stop != -1 else None]`: the front slice taken
by `redis.lrange(key, 0, stop)` (redis.py lines 295-305, in-memory branch;
real Redis LRANGE agrees: `stop = -1` means the end of the list, and a
negative slice endpoint counts from the end). -/
def lrange_front (l : List String) (stop : Int) : List String :=
  if stop = -1 then l
  else if 0 ≤ stop + 1 then l.take (stop + 1).toNat
  else l.take (l.length - (-(stop + 1)).toNat)

/-- `JobQueue.list_user_jobs`, job_queue.py lines 383-412:
`lrange(user_jobs_key, 0, limit - 1)`, then resolve each id and keep the
record when it exists and passes the optional status filter. -/
def list_user_jobs (st : QueueState) (user_id : Int) (limit : Int)
    (status_filter : Option JobStatus) : List JobData :=
  let job_ids := lrange_front (st.user_jobs user_id) (limit - 1)
  job_ids.filterMap fun job_id =>
    match st.jobs job_id with
    | some job =>
        if status_filter = none ∨ status_filter = some job.status then some job
        else none
    | none => none

/-- `JobCancelResponse`-level outcome of the cancel endpoint
(api/jobs.py lines 115-175), with the HTTP error branches. -/
inductive CancelOutcome
  | notFound
  | forbidden
  | ok (success : Bool) (job : JobData)
  deriving DecidableEq, Repr

/-- `POST /jobs/{job_id}/cancel` handler, api/jobs.py lines 115-175:
404 when absent, 403 on ownership mismatch, `success=False` with the job
unchanged (and no store write) when `is_terminal`, else `cancel_job` and
`success=True`.  Returns the response together with the store afterwards. -/
def cancel_job_endpoint (st : QueueState) (job_id : String)
    (current_user_id : Int) (now : Nat) : CancelOutcome × QueueState :=
  match st.jobs job_id with
  | none => (CancelOutcome.notFound, st)
  | some job =>
      if job.user_id ≠ current_user_id then (CancelOutcome.forbidden, st)
      else if job.is_terminal then (CancelOutcome.ok false job, st)
      else
        let job2 := (cancel_job job now).1
        (CancelOutcome.ok true job2,
         { st with jobs := fun k => if k = job_id then some job2
                                    else st.jobs k })

/-! ### Worker pool, worker.py -/

/-- `JobWorker._max_concurrent_jobs`, worker.py line 32. -/
def max_concurrent_jobs : Nat := 5

/-- The job types polled by the supervising loop, worker.py line 288:
`for job_type in [JobType.INGEST_FILE, JobType.INGEST_TEXT,
JobType.BATCH_INGEST]`. -/
def polled_job_types : List JobType :=
  [JobType.ingest_file, JobType.ingest_text, JobType.batch_ingest]

/-- `JobWorker.poll_queue`, worker.py lines 237-256: `lpop` one id from the
given type's dispatch queue. -/
def poll_queue (queues : JobType → List String) (t : JobType) :
    Option String × (JobType → List String) :=
  match queues t with
  | [] => (none, queues)
  | id :: rest => (some id, fun u => if u = t then rest else queues u)

/-- The `for job_type in [...]` polling loop of one iteration of
`JobWorker.run`, worker.py lines 288-313: for each type, break once the
active count reaches the ceiling, otherwise pop one id; a popped job is
spawned (active count +1) only when it resolves and its status is
`PENDING`, else it is discarded. -/
def poll_step (store : String → Option JobData) (maxConc : Nat) :
    List JobType → Nat → (JobType → List String) →
      Nat × (JobType → List String)
  | [], active, queues => (active, queues)
  | t :: rest, active, queues =>
      if maxConc ≤ active then (active, queues)
      else
        match poll_queue queues t with
        | (none, queues1) => poll_step store maxConc rest active queues1
        | (some id, queues1) =>
            match store id with
            | some job =>
                if job.status = JobStatus.pending then
                  poll_step store maxConc rest (active + 1) queues1
                else poll_step store maxConc rest active queues1
            | none => poll_step store maxConc rest active queues1

/-- Coordinator-visible worker state: the size of `active_tasks` and the
dispatch queues. -/
structure WorkerState where
  active : Nat
  queues : JobType → List String

/-- One iteration of the supervising `while` loop of `JobWorker.run`,
worker.py lines 273-316: reap `reaped` finished tasks from the active set,
then poll (worker.py line 284 gates polling on
`len(active_tasks) < self._max_concurrent_jobs`). -/
def run_iteration (store : String → Option JobData) (maxConc : Nat)
    (reaped : Nat) (st : WorkerState) : WorkerState :=
  let active := st.active - reaped
  if active < maxConc then
    let r := poll_step store maxConc polled_job_types active st.queues
    { active := r.1, queues := r.2 }
  else
    { active := active, queues := st.queues }

/-- Any number of supervising-loop iterations; before each, the environment
may reap finished tasks (`reaped`) and enqueue new work (arbitrary queue
modification `f`, covering `create_job`/`fail_job` pushes from other
coroutines). -/
def run_many (store : String → Option JobData) (maxConc : Nat) :
    List (Nat × ((JobType → List String) → JobType → List String)) →
      WorkerState → WorkerState
  | [], st => st
  | (reaped, f) :: rest, st =>
      run_many store maxConc rest
        (run_iteration store maxConc reaped { st with queues := f st.queues })

/-- The execution wrapper's failure path, iterated: each attempt calls
`start_job` then `fail_job` with `should_retry=True` (worker.py lines
209-235, the `except` arm of `process_job`); a retry re-runs the same pair.
Timestamps are irrelevant to the retry bookkeeping and passed as `0`;
the dispatch queue is observed per call via `fail_job`'s result. -/
def fail_every_attempt (e : String) : Nat → JobData → JobData
  | 0, j => j
  | n + 1, j =>
      fail_every_attempt e n (fail_job (start_job j 0).1 e true 0 []).job

/-! ### Concrete records and stores used to instantiate the theorems -/

/-- A freshly created record, as `create_job` builds it with the settings
defaults (`max_retries = 3`, `total_items = 1`). -/
def baseJob : JobData :=
  { job_id := "j1"
    user_id := 1
    job_type := JobType.ingest_file
    status := JobStatus.pending
    total_items := 1
    processed_items := 0
    failed_items := 0
    created_at := 0
    started_at := none
    completed_at := none
    error_message := none
    retry_count := 0
    max_retries := 3
    result := none
    metadata := [] }

/-- An empty job store. -/
def store0 : String → Option JobData := fun _ => none

/-- Dispatch queues holding one pending `reindex` job id and nothing else. -/
def queues_r : JobType → List String :=
  fun t => if t = JobType.reindex then ["r1"] else []

def jobA : JobData := { baseJob with job_id := "a" }

def jobB : JobData := { baseJob with job_id := "b" }

/-- A store where user 1 has history `["a", "b"]` and both records exist. -/
def stC8 : QueueState :=
  { jobs := fun id =>
      if id = "a" then some jobA else if id = "b" then some jobB else none
    user_jobs := fun u => if u = 1 then ["a", "b"] else []
    queues := fun _ => [] }

/-- A record already cancelled (terminal). -/
def job_done : JobData :=
  { baseJob with job_id := "c", status := JobStatus.cancelled,
                 completed_at := some 3 }

/-- A store holding only the terminal record `job_done` under key "c". -/
def stC6 : QueueState :=
  { jobs := fun id => if id = "c" then some job_done else none
    user_jobs := fun _ => []
    queues := fun _ => [] }

/-- The empty queue state. -/
def emptyState : QueueState :=
  { jobs := fun _ => none, user_jobs := fun _ => [], queues := fun _ => [] }

/-- A processing record whose `total_items` is `0` but which tallied
progress increments anyway. -/
def job_zero_total : JobData :=
  { baseJob with status := JobStatus.processing, total_items := 0,
                 processed_items := 3 }

/-- A record mid-execution. -/
def job_proc : JobData := { baseJob with status := JobStatus.processing }

/-- A processing record with two items, none yet tallied. -/
def job_t2 : JobData :=
  { baseJob with status := JobStatus.processing, total_items := 2 }

/-! ### Helper lemmas -/

theorem fail_job_requeue_fields (j : JobData) (e : String) (now : Nat)
    (q : List String) (h : j.retry_count + 1 ≤ j.max_retries) :
    (fail_job j e true now q).job.status = JobStatus.pending ∧
    (fail_job j e true now q).job.retry_count = j.retry_count + 1 ∧
    (fail_job j e true now q).job.max_retries = j.max_retries ∧
    (fail_job j e true now q).queue = q ++ [j.job_id] := by
  unfold fail_job
  rw [if_pos ⟨rfl, h⟩]
  exact ⟨rfl, rfl, rfl, rfl⟩

theorem fail_job_permanent_fields (j : JobData) (e : String) (s : Bool)
    (now : Nat) (q : List String)
    (h : ¬ (s = true ∧ j.retry_count + 1 ≤ j.max_retries)) :
    (fail_job j e s now q).job.status = JobStatus.failed ∧
    (fail_job j e s now q).job.retry_count = j.retry_count + 1 ∧
    (fail_job j e s now q).job.completed_at = some now ∧
    (fail_job j e s now q).queue = q := by
  unfold fail_job
  rw [if_neg h]
  exact ⟨rfl, rfl, rfl, rfl⟩

theorem fail_step_requeue (j : JobData) (e : String)
    (h : j.retry_count + 1 ≤ j.max_retries) :
    (fail_job (start_job j 0).1 e true 0 []).job.status = JobStatus.pending ∧
    (fail_job (start_job j 0).1 e true 0 []).job.retry_count =
      j.retry_count + 1 ∧
    (fail_job (start_job j 0).1 e true 0 []).job.max_retries =
      j.max_retries := by
  have h2 := fail_job_requeue_fields (start_job j 0).1 e 0 [] h
  exact ⟨h2.1, h2.2.1, h2.2.2.1⟩

theorem fail_step_permanent (j : JobData) (e : String)
    (h : ¬ (j.retry_count + 1 ≤ j.max_retries)) :
    (fail_job (start_job j 0).1 e true 0 []).job.status = JobStatus.failed ∧
    (fail_job (start_job j 0).1 e true 0 []).job.retry_count =
      j.retry_count + 1 := by
  have h2 := fail_job_permanent_fields (start_job j 0).1 e true 0 []
    (fun hc => h hc.2)
  exact ⟨h2.1, h2.2.1⟩

theorem fail_every_attempt_exhaust (e : String) :
    ∀ (n : Nat) (j : JobData),
      j.retry_count + n + 1 = j.max_retries + 1 →
      (fail_every_attempt e (n + 1) j).status = JobStatus.failed ∧
      (fail_every_attempt e (n + 1) j).retry_count = j.max_retries + 1 := by
  intro n
  induction n with
  | zero =>
      intro j h
      have hn : ¬ (j.retry_count + 1 ≤ j.max_retries) := by omega
      have hp := fail_step_permanent j e hn
      have hone : fail_every_attempt e 1 j =
          (fail_job (start_job j 0).1 e true 0 []).job := rfl
      refine ⟨by rw [hone]; exact hp.1, by rw [hone, hp.2]; omega⟩
  | succ m ih =>
      intro j h
      have hle : j.retry_count + 1 ≤ j.max_retries := by omega
      have hf := fail_step_requeue j e hle
      have hstep : fail_every_attempt e (m + 1 + 1) j =
          fail_every_attempt e (m + 1)
            ((fail_job (start_job j 0).1 e true 0 []).job) := rfl
      have ih1 := ih ((fail_job (start_job j 0).1 e true 0 []).job)
        (by rw [hf.2.1, hf.2.2]; omega)
      rw [hstep]
      exact ⟨ih1.1, by rw [ih1.2, hf.2.2]⟩

/-! ### Claims -/

/-- C1 counterexample: `start_job` applied to a record whose status is the
terminal `completed` moves it straight back to `processing` — the edge
`completed → processing` that the claim says is never taken. -/
theorem C1_counterexample :
    JobData.is_terminal { baseJob with status := JobStatus.completed } =
      true ∧
    (start_job { baseJob with status := JobStatus.completed } 5).1.status =
      JobStatus.processing := ⟨rfl, rfl⟩

/-- C1 (amended): `start_job` sets `status=processing` unconditionally — it
does not check the prior status, so it will resume even a terminal record;
the remaining lifecycle operations never produce `processing`:
`update_progress` preserves the status, `complete_job` yields `completed`,
`fail_job` yields `pending` or `failed`, and `cancel_job` returns a
terminal record unchanged and sends a non-terminal one to `cancelled`.
The §4.3 transitions therefore hold exactly when callers invoke
`start_job` only on `pending` records, as the worker pool does. -/
theorem C1_lifecycle_status_transitions :
    (∀ (j : JobData) (now : Nat),
       (start_job j now).1.status = JobStatus.processing ∧
       (start_job j now).1.started_at = some now) ∧
    (∀ (j : JobData) (p f : Option Nat) (inc : Bool),
       (update_progress j p f inc).1.status = j.status) ∧
    (∀ (j : JobData) (r : Option RDict) (now : Nat),
       (complete_job j r now).1.status = JobStatus.completed) ∧
    (∀ (j : JobData) (e : String) (s : Bool) (now : Nat) (q : List String),
       (fail_job j e s now q).job.status = JobStatus.pending ∨
       (fail_job j e s now q).job.status = JobStatus.failed) ∧
    (∀ (j : JobData) (now : Nat), j.is_terminal = true →
       cancel_job j now = (j, none)) ∧
    (∀ (j : JobData) (now : Nat), j.is_terminal = false →
       (cancel_job j now).1.status = JobStatus.cancelled) := by
  refine ⟨fun j now => ⟨rfl, rfl⟩, ?_, fun j r now => rfl, ?_, ?_, ?_⟩
  · intro j p f inc
    cases p <;> cases f <;> cases inc <;> rfl
  · intro j e s now q
    by_cases hc : s = true ∧ j.retry_count + 1 ≤ j.max_retries
    · obtain ⟨hs, hle⟩ := hc
      subst hs
      exact Or.inl (fail_job_requeue_fields j e now q hle).1
    · exact Or.inr (fail_job_permanent_fields j e s now q hc).1
  · intro j now h
    simp [cancel_job, h]
  · intro j now h
    simp [cancel_job, h, update_job]

/-- C1 witness: the amended theorem instantiated — a cancelled (terminal)
record is returned unchanged by `cancel_job`, and a pending record given to
`start_job` comes back `processing`. -/
theorem C1_lifecycle_status_transitions_witness :
    cancel_job job_done 9 = (job_done, none) ∧
    (start_job baseJob 2).1.status = JobStatus.processing :=
  ⟨C1_lifecycle_status_transitions.2.2.2.2.1 job_done 9 rfl,
   (C1_lifecycle_status_transitions.1 baseJob 2).1⟩

/-- C2: every `fail_job` call increments `retry_count` by exactly one; with
`should_retry` and the incremented count within budget the job is reset to
`pending` and its id re-appended to its type's dispatch queue, otherwise it
is marked `failed` with `completed_at` set; hence a job failing on every
attempt ends `failed` with `retry_count = max_retries + 1`. -/
theorem C2_fail_job_retry_policy :
    (∀ (j : JobData) (e : String) (s : Bool) (now : Nat) (q : List String),
       (fail_job j e s now q).job.retry_count = j.retry_count + 1) ∧
    (∀ (j : JobData) (e : String) (now : Nat) (q : List String),
       j.retry_count + 1 ≤ j.max_retries →
       (fail_job j e true now q).job.status = JobStatus.pending ∧
       (fail_job j e true now q).queue = q ++ [j.job_id]) ∧
    (∀ (j : JobData) (e : String) (s : Bool) (now : Nat) (q : List String),
       ¬ (s = true ∧ j.retry_count + 1 ≤ j.max_retries) →
       (fail_job j e s now q).job.status = JobStatus.failed ∧
       (fail_job j e s now q).job.completed_at = some now ∧
       (fail_job j e s now q).queue = q) ∧
    (∀ (j : JobData) (e : String), j.retry_count = 0 →
       (fail_every_attempt e (j.max_retries + 1) j).status =
         JobStatus.failed ∧
       (fail_every_attempt e (j.max_retries + 1) j).retry_count =
         j.max_retries + 1) := by
  refine ⟨?_, ?_, ?_, ?_⟩
  · intro j e s now q
    by_cases hc : s = true ∧ j.retry_count + 1 ≤ j.max_retries
    · obtain ⟨hs, hle⟩ := hc
      subst hs
      exact (fail_job_requeue_fields j e now q hle).2.1
    · exact (fail_job_permanent_fields j e s now q hc).2.1
  · intro j e now q h
    have h2 := fail_job_requeue_fields j e now q h
    exact ⟨h2.1, h2.2.2.2⟩
  · intro j e s now q h
    have h2 := fail_job_permanent_fields j e s now q h
    exact ⟨h2.1, h2.2.2.1, h2.2.2.2⟩
  · intro j e h
    exact fail_every_attempt_exhaust e j.max_retries j (by omega)

/-- C2 witness: a fresh record with `max_retries = 3` failing on all four
attempts ends `failed` with `retry_count = 4`; a single `fail_job` on it
increments `retry_count` to 1 and requeues it. -/
theorem C2_fail_job_retry_policy_witness :
    (fail_job baseJob "e" true 0 []).job.retry_count = 1 ∧
    (fail_job baseJob "e" true 0 []).job.status = JobStatus.pending ∧
    (fail_every_attempt "e" 4 baseJob).status = JobStatus.failed ∧
    (fail_every_attempt "e" 4 baseJob).retry_count = 4 :=
  ⟨C2_fail_job_retry_policy.1 baseJob "e" true 0 [],
   (C2_fail_job_retry_policy.2.1 baseJob "e" 0 [] (by decide)).1,
   (C2_fail_job_retry_policy.2.2.2 baseJob "e" rfl).1,
   (C2_fail_job_retry_policy.2.2.2 baseJob "e" rfl).2⟩

/-- C4 counterexample: on a job whose `total_items` is `0` (pydantic allows
`ge=0`), `complete_job` does force `processed_items = total_items = 0`, but
`progress` is then `0`, not `1.0` — the zero-total guard in `progress`
overrides the "always 100% on success" reading. -/
theorem C4_counterexample :
    (complete_job job_zero_total none 7).1.status = JobStatus.completed ∧
    (complete_job job_zero_total none 7).1.progress = 0 ∧
    ¬ (complete_job job_zero_total none 7).1.progress = 1 := by
  refine ⟨rfl, rfl, ?_⟩
  have h0 : (complete_job job_zero_total none 7).1.progress = 0 := rfl
  rw [h0]
  norm_num

/-- C4 (amended): `complete_job` sets `status=completed`, `completed_at`,
stores the given result (`result or \x7b\x7d`), forces
`processed_items = total_items`, and re-persists with the shorter
`job_result_ttl`; consequently progress is reported as `1.0` on success
regardless of the incremental values recorded during execution whenever
`total_items` is nonzero — when `total_items = 0` the zero-total guard
keeps progress at `0`. -/
theorem C4_complete_job_success :
    ∀ (j : JobData) (r : Option RDict) (now : Nat),
      (complete_job j r now).1.status = JobStatus.completed ∧
      (complete_job j r now).1.completed_at = some now ∧
      (complete_job j r now).1.result = some (py_or_empty r) ∧
      (complete_job j r now).1.processed_items = j.total_items ∧
      (complete_job j r now).2 = Ttl.jobResultTtl ∧
      (j.total_items ≠ 0 → (complete_job j r now).1.progress = 1) ∧
      (j.total_items = 0 → (complete_job j r now).1.progress = 0) := by
  intro j r now
  refine ⟨rfl, rfl, rfl, rfl, rfl, ?_, ?_⟩
  · intro h
    have hcast : (j.total_items : ℚ) ≠ 0 := Nat.cast_ne_zero.mpr h
    show (if j.total_items = 0 then (0 : ℚ)
          else min ((j.total_items : ℚ) / (j.total_items : ℚ)) 1) = 1
    rw [if_neg h, div_self hcast, min_self]
  · intro h
    show (if j.total_items = 0 then (0 : ℚ)
          else min ((j.total_items : ℚ) / (j.total_items : ℚ)) 1) = 0
    rw [if_pos h]

/-- C4 witness: completing a two-item processing job that tallied nothing
still reports `processed_items = 2` and progress `1`. -/
theorem C4_complete_job_success_witness :
    (complete_job job_t2 none 7).1.processed_items = 2 ∧
    (complete_job job_t2 none 7).1.progress = 1 :=
  ⟨(C4_complete_job_success job_t2 none 7).2.2.2.1,
   (C4_complete_job_success job_t2 none 7).2.2.2.2.2.1 (by decide)⟩

/-- C5 counterexample: failing a processing job permanently
(`should_retry=False`) leaves it terminal (`failed`) yet re-persists it via
`update_job` with `job_ttl`, not the shorter `job_result_ttl`. -/
theorem C5_counterexample :
    (fail_job job_proc "boom" false 3 []).job.status = JobStatus.failed ∧
    (fail_job job_proc "boom" false 3 []).ttl = Ttl.jobTtl ∧
    Ttl.jobTtl ≠ Ttl.jobResultTtl := by
  refine ⟨?_, ?_, by decide⟩
  · exact (fail_job_permanent_fields job_proc "boom" false 3 []
      (fun hc => by exact absurd hc.1 (by decide))).1
  · unfold fail_job
    rw [if_neg (fun hc => by exact absurd hc.1 (by decide) : _)]
    rfl

/-- C5 (amended): every persist issued through `update_job` — which covers
`start_job`, `update_progress`, and also `fail_job` and `cancel_job`
regardless of the resulting status — uses `job_ttl`, as does `create_job`;
only `complete_job` re-persists with the shorter `job_result_ttl`, so jobs
ending `failed` or `cancelled` keep the longer TTL. -/
theorem C5_persist_ttl :
    (∀ (j : JobData), (update_job j).2 = Ttl.jobTtl) ∧
    (∀ (st : QueueState) (id : String) (u : Int) (ty : JobType)
       (n m : Nat) (md : RDict) (now : Nat),
       (create_job st id u ty n m md now).2.2 = Ttl.jobTtl) ∧
    (∀ (j : JobData) (now : Nat), (start_job j now).2 = Ttl.jobTtl) ∧
    (∀ (j : JobData) (p f : Option Nat) (inc : Bool),
       (update_progress j p f inc).2 = Ttl.jobTtl) ∧
    (∀ (j : JobData) (r : Option RDict) (now : Nat),
       (complete_job j r now).2 = Ttl.jobResultTtl) ∧
    (∀ (j : JobData) (e : String) (s : Bool) (now : Nat) (q : List String),
       (fail_job j e s now q).ttl = Ttl.jobTtl) ∧
    (∀ (j : JobData) (now : Nat), j.is_terminal = false →
       (cancel_job j now).2 = some Ttl.jobTtl) ∧
    job_result_ttl_default < job_ttl_default := by
  refine ⟨fun j => rfl, fun st id u ty n m md now => rfl, fun j now => rfl,
    ?_, fun j r now => rfl, ?_, ?_, by decide⟩
  · intro j p f inc
    cases p <;> cases f <;> cases inc <;> rfl
  · intro j e s now q
    by_cases hc : s = true ∧ j.retry_count + 1 ≤ j.max_retries
    · unfold fail_job
      rw [if_pos hc]
      rfl
    · unfold fail_job
      rw [if_neg hc]
      rfl
  · intro j now h
    simp [cancel_job, h, update_job]

/-- C5 witness: cancelling the pending `baseJob` persists with `job_ttl`,
and completing it persists with `job_result_ttl`. -/
theorem C5_persist_ttl_witness :
    (cancel_job baseJob 2).2 = some Ttl.jobTtl ∧
    (complete_job baseJob none 2).2 = Ttl.jobResultTtl :=
  ⟨C5_persist_ttl.2.2.2.2.2.2.1 baseJob 2 rfl,
   C5_persist_ttl.2.2.2.2.1 baseJob none 2⟩

/-- C9: `progress` equals `processed_items / total_items` clamped to
`[0, 1]`, is `0` when `total_items = 0` (the division is guarded), and
always lies in `[0, 1]` (the counters are non-negative by the model's
`ge=0` constraints, reflected as `Nat`). -/
theorem C9_progress_in_unit_interval :
    ∀ (j : JobData),
      (j.total_items = 0 → j.progress = 0) ∧
      (j.total_items ≠ 0 →
        j.progress = min ((j.processed_items : ℚ) / (j.total_items : ℚ)) 1) ∧
      0 ≤ j.progress ∧ j.progress ≤ 1 := by
  intro j
  refine ⟨fun h => by simp [JobData.progress, h],
    fun h => by simp [JobData.progress, h], ?_, ?_⟩
  · unfold JobData.progress
    split
    · exact le_refl 0
    · exact le_min (div_nonneg (Nat.cast_nonneg _) (Nat.cast_nonneg _))
        zero_le_one
  · unfold JobData.progress
    split
    · exact zero_le_one
    · exact min_le_right _ _

/-- C9 witness: a half-done ten-item job has progress `1/2`, within
bounds; a zero-total job has progress `0`. -/
theorem C9_progress_in_unit_interval_witness :
    ({ baseJob with total_items := 10, processed_items := 5 } :
      JobData).progress ≤ 1 ∧
    job_zero_total.progress = 0 :=
  ⟨(C9_progress_in_unit_interval _).2.2.2,
   (C9_progress_in_unit_interval job_zero_total).1 rfl⟩

/-- C10: `complete_job` modifies only `status`, `completed_at`, `result`
and `processed_items`; every other field — `job_id`, `user_id`,
`job_type`, `total_items`, `failed_items`, `created_at`, `started_at`,
`error_message`, `retry_count`, `max_retries`, `metadata` — is unchanged,
so a job that failed, was requeued, and then succeeded is returned
`completed` while still carrying the `error_message` of its last failure
and its nonzero `retry_count`. -/
theorem C10_complete_job_frame :
    (∀ (j : JobData) (r : Option RDict) (now : Nat),
       (complete_job j r now).1.job_id = j.job_id ∧
       (complete_job j r now).1.user_id = j.user_id ∧
       (complete_job j r now).1.job_type = j.job_type ∧
       (complete_job j r now).1.total_items = j.total_items ∧
       (complete_job j r now).1.failed_items = j.failed_items ∧
       (complete_job j r now).1.created_at = j.created_at ∧
       (complete_job j r now).1.started_at = j.started_at ∧
       (complete_job j r now).1.error_message = j.error_message ∧
       (complete_job j r now).1.retry_count = j.retry_count ∧
       (complete_job j r now).1.max_retries = j.max_retries ∧
       (complete_job j r now).1.metadata = j.metadata) ∧
    (∀ (j : JobData) (e : String) (now : Nat) (q : List String)
       (r : Option RDict) (now2 : Nat),
       j.retry_count + 1 ≤ j.max_retries →
       (complete_job (fail_job j e true now q).job r now2).1.status =
         JobStatus.completed ∧
       (complete_job (fail_job j e true now q).job r now2).1.error_message =
         some e ∧
       (complete_job (fail_job j e true now q).job r now2).1.retry_count =
         j.retry_count + 1) := by
  constructor
  · intro j r now
    exact ⟨rfl, rfl, rfl, rfl, rfl, rfl, rfl, rfl, rfl, rfl, rfl⟩
  · intro j e now q r now2 h
    unfold fail_job
    rw [if_pos ⟨rfl, h⟩]
    exact ⟨rfl, rfl, rfl⟩

/-- C10 witness: fail the fresh `baseJob` once (within budget), then
complete it — the record is `completed` yet still shows the failure's
`error_message` and `retry_count = 1`. -/
theorem C10_complete_job_frame_witness :
    (complete_job (fail_job baseJob "oops" true 1 []).job none 2).1.status =
      JobStatus.completed ∧
    (complete_job (fail_job baseJob "oops" true 1 []).job none
      2).1.error_message = some "oops" ∧
    (complete_job (fail_job baseJob "oops" true 1 []).job none
      2).1.retry_count = 1 :=
  C10_complete_job_frame.2 baseJob "oops" 1 [] none 2 (by decide)

/-- C6: for a job already terminal, `cancel_job` is a no-op returning the
job in its prior status without persisting, and the cancel endpoint
answers `success=False` with the store untouched; for a non-terminal job,
`cancel_job` sets `status=cancelled` and `completed_at`, and the endpoint
answers `success=True`. -/
theorem C6_cancel_terminal_noop :
    (∀ (j : JobData) (now : Nat), j.is_terminal = true →
       cancel_job j now = (j, none)) ∧
    (∀ (j : JobData) (now : Nat), j.is_terminal = false →
       (cancel_job j now).1.status = JobStatus.cancelled ∧
       (cancel_job j now).1.completed_at = some now) ∧
    (∀ (st : QueueState) (id : String) (u : Int) (now : Nat) (j : JobData),
       st.jobs id = some j → j.user_id = u → j.is_terminal = true →
       cancel_job_endpoint st id u now = (CancelOutcome.ok false j, st)) ∧
    (∀ (st : QueueState) (id : String) (u : Int) (now : Nat) (j : JobData),
       st.jobs id = some j → j.user_id = u → j.is_terminal = false →
       (cancel_job_endpoint st id u now).1 =
         CancelOutcome.ok true (cancel_job j now).1) := by
  refine ⟨?_, ?_, ?_, ?_⟩
  · intro j now h
    simp [cancel_job, h]
  · intro j now h
    constructor <;> simp [cancel_job, h, update_job]
  · intro st id u now j hj hu ht
    unfold cancel_job_endpoint
    rw [hj]
    simp [hu, ht]
  · intro st id u now j hj hu ht
    unfold cancel_job_endpoint
    rw [hj]
    simp [hu, ht]

/-- C6 witness: cancelling the already-cancelled `job_done` through the
endpoint yields `success=False` and an unchanged store, and cancelling the
pending `baseJob` directly yields `cancelled`. -/
theorem C6_cancel_terminal_noop_witness :
    cancel_job_endpoint stC6 "c" 1 4 = (CancelOutcome.ok false job_done,
      stC6) ∧
    (cancel_job baseJob 4).1.status = JobStatus.cancelled :=
  ⟨C6_cancel_terminal_noop.2.2.1 stC6 "c" 1 4 job_done rfl rfl rfl,
   (C6_cancel_terminal_noop.2.1 baseJob 4 rfl).1⟩

/-! ### Worker-pool lemmas -/

theorem poll_step_cons_stop (store : String → Option JobData) (m : Nat)
    (t : JobType) (rest : List JobType) (active : Nat)
    (queues : JobType → List String) (h : m ≤ active) :
    poll_step store m (t :: rest) active queues = (active, queues) := by
  simp only [poll_step]
  rw [if_pos h]

theorem poll_step_cons_empty (store : String → Option JobData) (m : Nat)
    (t : JobType) (rest : List JobType) (active : Nat)
    (queues : JobType → List String) (h : ¬ m ≤ active)
    (hq : queues t = []) :
    poll_step store m (t :: rest) active queues =
      poll_step store m rest active queues := by
  simp only [poll_step]
  rw [if_neg h]
  simp only [poll_queue, hq]

theorem poll_step_cons_pop (store : String → Option JobData) (m : Nat)
    (t : JobType) (rest : List JobType) (active : Nat)
    (queues : JobType → List String) (id : String) (q2 : List String)
    (h : ¬ m ≤ active) (hq : queues t = id :: q2) :
    poll_step store m (t :: rest) active queues =
      poll_step store m rest
        (match store id with
         | some job => if job.status = JobStatus.pending then active + 1
                       else active
         | none => active)
        (fun u => if u = t then q2 else queues u) := by
  simp only [poll_step]
  rw [if_neg h]
  simp only [poll_queue, hq]
  cases hs : store id with
  | none => rfl
  | some job =>
      by_cases hp : job.status = JobStatus.pending <;> simp [hp]

theorem poll_step_active_le (store : String → Option JobData) (m : Nat) :
    ∀ (l : List JobType) (active : Nat) (queues : JobType → List String),
      active ≤ m → (poll_step store m l active queues).1 ≤ m := by
  intro l
  induction l with
  | nil => intro active queues h; exact h
  | cons t rest ih =>
      intro active queues h
      by_cases hca : m ≤ active
      · rw [poll_step_cons_stop store m t rest active queues hca]
        exact h
      · cases hq : queues t with
        | nil =>
            rw [poll_step_cons_empty store m t rest active queues hca hq]
            exact ih active queues h
        | cons id q2 =>
            rw [poll_step_cons_pop store m t rest active queues id q2 hca hq]
            cases hs : store id with
            | none => exact ih _ _ h
            | some job =>
                by_cases hp : job.status = JobStatus.pending
                · simp only [hp, if_true]
                  exact ih _ _ (Nat.succ_le_of_lt (not_le.mp hca))
                · simp only [hp, if_false]
                  exact ih _ _ h

theorem poll_step_stopped (store : String → Option JobData) (m : Nat) :
    ∀ (l : List JobType) (active : Nat) (queues : JobType → List String),
      m ≤ active → poll_step store m l active queues = (active, queues) := by
  intro l
  cases l with
  | nil => intro active queues _; rfl
  | cons t rest => exact fun active queues h =>
      poll_step_cons_stop store m t rest active queues h

theorem poll_step_not_mem (store : String → Option JobData) (m : Nat) :
    ∀ (l : List JobType) (active : Nat) (queues : JobType → List String)
      (t : JobType), t ∉ l →
      (poll_step store m l active queues).2 t = queues t := by
  intro l
  induction l with
  | nil => intro active queues t _; rfl
  | cons t0 rest ih =>
      intro active queues t ht
      have ht0 : t ≠ t0 := fun he => ht (he ▸ List.mem_cons_self t0 rest)
      have htr : t ∉ rest := fun he => ht (List.mem_cons_of_mem t0 he)
      by_cases hca : m ≤ active
      · rw [poll_step_cons_stop store m t0 rest active queues hca]
      · cases hq : queues t0 with
        | nil =>
            rw [poll_step_cons_empty store m t0 rest active queues hca hq]
            exact ih active queues t htr
        | cons id q2 =>
            rw [poll_step_cons_pop store m t0 rest active queues id q2 hca
              hq]
            rw [ih _ _ t htr]
            simp [ht0]

theorem poll_step_pop_at_most_one (store : String → Option JobData)
    (m : Nat) :
    ∀ (l : List JobType), l.Nodup →
      ∀ (active : Nat) (queues : JobType → List String) (t : JobType),
        (poll_step store m l active queues).2 t = queues t ∨
        (poll_step store m l active queues).2 t = (queues t).tail := by
  intro l
  induction l with
  | nil => intro _ active queues t; exact Or.inl rfl
  | cons t0 rest ih =>
      intro hnd active queues t
      have ht0r : t0 ∉ rest := (List.nodup_cons.mp hnd).1
      have hndr : rest.Nodup := (List.nodup_cons.mp hnd).2
      by_cases hca : m ≤ active
      · rw [poll_step_cons_stop store m t0 rest active queues hca]
        exact Or.inl rfl
      · cases hq : queues t0 with
        | nil =>
            rw [poll_step_cons_empty store m t0 rest active queues hca hq]
            exact ih hndr active queues t
        | cons id q2 =>
            rw [poll_step_cons_pop store m t0 rest active queues id q2 hca
              hq]
            by_cases htt : t = t0
            · subst htt
              right
              rw [poll_step_not_mem store m rest _ _ t ht0r]
              simp [hq]
            · rcases ih hndr (match store id with
                  | some job => if job.status = JobStatus.pending then
                      active + 1 else active
                  | none => active)
                  (fun u => if u = t0 then q2 else queues u) t with h | h
              · exact Or.inl (by rw [h]; simp [htt])
              · exact Or.inr (by rw [h]; simp [htt])

theorem run_iteration_active_le (store : String → Option JobData) (m : Nat)
    (reaped : Nat) (st : WorkerState) (h : st.active ≤ m) :
    (run_iteration store m reaped st).active ≤ m := by
  unfold run_iteration
  by_cases hc : st.active - reaped < m
  · rw [if_pos hc]
    exact poll_step_active_le store m _ _ _ (le_of_lt hc)
  · rw [if_neg hc]
    show st.active - reaped ≤ m
    omega

theorem run_many_active_le (store : String → Option JobData) (m : Nat) :
    ∀ (steps : List (Nat × ((JobType → List String) → JobType →
        List String))) (st : WorkerState),
      st.active ≤ m → (run_many store m steps st).active ≤ m := by
  intro steps
  induction steps with
  | nil => intro st h; exact h
  | cons p rest ih =>
      intro st h
      exact ih _ (run_iteration_active_le store m p.1 _ h)

theorem run_iteration_not_polled (store : String → Option JobData)
    (m reaped : Nat) (st : WorkerState) (t : JobType)
    (h : t ∉ polled_job_types) :
    (run_iteration store m reaped st).queues t = st.queues t := by
  unfold run_iteration
  by_cases hc : st.active - reaped < m
  · rw [if_pos hc]
    exact poll_step_not_mem store m polled_job_types _ _ t h
  · rw [if_neg hc]

theorem run_iteration_pop_at_most_one (store : String → Option JobData)
    (m reaped : Nat) (st : WorkerState) (t : JobType) :
    (run_iteration store m reaped st).queues t = st.queues t ∨
    (run_iteration store m reaped st).queues t = (st.queues t).tail := by
  unfold run_iteration
  by_cases hc : st.active - reaped < m
  · rw [if_pos hc]
    exact poll_step_pop_at_most_one store m polled_job_types (by decide)
      _ _ t
  · rw [if_neg hc]
    exact Or.inl rfl

/-- C3 counterexample: `reindex` is not among the polled job types, so an
iteration with spare capacity (active `0 < 5`) leaves a waiting `reindex`
job id in its dispatch queue untouched — that queue is permanently
unpolled, contradicting the claim that all five types are polled. -/
theorem C3_counterexample :
    JobType.reindex ∉ polled_job_types ∧
    JobType.delete_documents ∉ polled_job_types ∧
    (run_iteration store0 max_concurrent_jobs 0
      ⟨0, queues_r⟩).queues JobType.reindex = ["r1"] ∧
    0 < max_concurrent_jobs := by
  refine ⟨by decide, by decide, ?_, by decide⟩
  rfl

/-- C3 (amended): on every iteration with spare capacity the supervising
loop polls only `ingest_file`, `ingest_text` and `batch_ingest`, in that
fixed order, popping at most one identifier per type per iteration; the
`reindex` and `delete_documents` dispatch queues are never polled. -/
theorem C3_round_robin_polling :
    polled_job_types =
      [JobType.ingest_file, JobType.ingest_text, JobType.batch_ingest] ∧
    (∀ (store : String → Option JobData) (m reaped : Nat)
       (st : WorkerState),
       (run_iteration store m reaped st).queues JobType.reindex =
         st.queues JobType.reindex ∧
       (run_iteration store m reaped st).queues JobType.delete_documents =
         st.queues JobType.delete_documents) ∧
    (∀ (store : String → Option JobData) (m reaped : Nat)
       (st : WorkerState) (t : JobType),
       (run_iteration store m reaped st).queues t = st.queues t ∨
       (run_iteration store m reaped st).queues t = (st.queues t).tail) := by
  refine ⟨rfl, ?_, ?_⟩
  · intro store m reaped st
    exact ⟨run_iteration_not_polled store m reaped st JobType.reindex
        (by decide),
      run_iteration_not_polled store m reaped st JobType.delete_documents
        (by decide)⟩
  · intro store m reaped st t
    exact run_iteration_pop_at_most_one store m reaped st t

/-- C7: the number of active tasks never exceeds `max_concurrent_jobs`
(hard-coded 5 in the worker): starting from an empty active set, any
sequence of supervising-loop iterations — with arbitrary reaping and
arbitrary external enqueues between iterations — keeps the active count at
or below the ceiling, and polling stops (returning queues untouched) once
the ceiling is reached. -/
theorem C7_concurrency_ceiling :
    (∀ (store : String → Option JobData)
       (steps : List (Nat × ((JobType → List String) → JobType →
         List String)))
       (qs : JobType → List String),
       (run_many store max_concurrent_jobs steps ⟨0, qs⟩).active ≤
         max_concurrent_jobs) ∧
    (∀ (store : String → Option JobData) (l : List JobType) (active : Nat)
       (queues : JobType → List String),
       max_concurrent_jobs ≤ active →
       poll_step store max_concurrent_jobs l active queues =
         (active, queues)) ∧
    max_concurrent_jobs = 5 := by
  refine ⟨?_, ?_, rfl⟩
  · intro store steps qs
    exact run_many_active_le store max_concurrent_jobs steps ⟨0, qs⟩
      (Nat.zero_le _)
  · intro store l active queues h
    exact poll_step_stopped store max_concurrent_jobs l active queues h

/-- C7 witness: two concrete iterations over the sample queues stay at or
below the ceiling, and a saturated loop (active `7 ≥ 5`) pops nothing. -/
theorem C7_concurrency_ceiling_witness :
    (run_many store0 max_concurrent_jobs [(0, id), (0, id)]
      ⟨0, queues_r⟩).active ≤ max_concurrent_jobs ∧
    poll_step store0 max_concurrent_jobs polled_job_types 7 queues_r =
      (7, queues_r) :=
  ⟨C7_concurrency_ceiling.1 store0 [(0, id), (0, id)] queues_r,
   C7_concurrency_ceiling.2.1 store0 polled_job_types 7 queues_r
     (by decide)⟩

theorem lrange_front_take (l : List String) (limit : Int) (h : 1 ≤ limit) :
    lrange_front l (limit - 1) = l.take limit.toNat := by
  unfold lrange_front
  rw [if_neg (by omega : ¬ (limit - 1 = -1)),
    if_pos (by omega : (0 : Int) ≤ limit - 1 + 1)]
  have h2 : limit - 1 + 1 = limit := by omega
  rw [h2]

/-- C8 counterexample: with `limit = 0` the call becomes
`lrange(key, 0, -1)`, and `-1` denotes the end of the list, so the ENTIRE
history is read: on a two-job history both records come back — more than
`limit = 0` — contradicting "reads at most `limit` identifiers". -/
theorem C8_counterexample :
    list_user_jobs stC8 1 0 none = [jobA, jobB] ∧
    ¬ ((list_user_jobs stC8 1 0 none).length ≤ 0) := by
  refine ⟨?_, ?_⟩ <;> decide

/-- C8 (amended): for `limit ≥ 1`, `list_user_jobs` reads exactly the
first `limit` identifiers of the user's history (most-recent-first, since
`create_job` prepends), resolves them, and applies the status filter only
after that truncation, so it returns at most `limit` records and filtered
results can be fewer than `limit` even when more matches exist further
back; for `limit = 0` the `lrange` endpoint `-1` means end-of-list and the
whole history is read instead. -/
theorem C8_list_user_jobs_limit_then_filter :
    (∀ (st : QueueState) (u : Int) (limit : Int)
       (filt : Option JobStatus), 1 ≤ limit →
       list_user_jobs st u limit filt =
         ((st.user_jobs u).take limit.toNat).filterMap (fun job_id =>
           match st.jobs job_id with
           | some job =>
               if filt = none ∨ filt = some job.status then some job
               else none
           | none => none) ∧
       (list_user_jobs st u limit filt).length ≤ limit.toNat) ∧
    (∀ (st : QueueState) (id : String) (u : Int) (ty : JobType)
       (n m : Nat) (md : RDict) (now : Nat),
       (create_job st id u ty n m md now).1.user_jobs u =
         id :: st.user_jobs u) := by
  constructor
  · intro st u limit filt h
    have hl := lrange_front_take (st.user_jobs u) limit h
    constructor
    · unfold list_user_jobs
      rw [hl]
    · unfold list_user_jobs
      rw [hl]
      exact le_trans (List.length_filterMap_le _ _)
        (List.length_take_le _ _)
  · intro st id u ty n m md now
    simp [create_job]

/-- C8 witness: with `limit = 1` on the two-job history only the most
recent record is returned, and creating a job in the empty store prepends
its id to the user's history. -/
theorem C8_list_user_jobs_limit_then_filter_witness :
    (list_user_jobs stC8 1 1 none).length ≤ (1 : Int).toNat ∧
    (create_job emptyState "x" 1 JobType.reindex 1 3 [] 0).1.user_jobs 1 =
      ["x"] :=
  ⟨(C8_list_user_jobs_limit_then_filter.1 stC8 1 1 none (by decide)).2,
   by
     have h := C8_list_user_jobs_limit_then_filter.2 emptyState "x" 1
       JobType.reindex 1 3 [] 0
     simpa [emptyState] using h⟩

end JobQueueModel
